import Mathlib

/-
A shallow embedding of src/src/MidiPlayer.js (the MidiPlayer class of the
midi-player repository).

Modelling conventions:
  - JavaScript values that the player stores (the volume) are modelled by
    the type JSVal (finite numbers as rationals, strings as strings); NaN is
    modelled as the `none` of an `Option`.
  - The external synthesis engine (LibTiMidity), the host audio output and
    the network are oracles: an `Env` record fixes the values every external
    call returns during one operation.  Engine calls themselves are modelled
    as returning normally; failures the source observes through exceptions
    of host calls (AudioContext creation, close, suspend, resume) and of
    patch/network fetches are Boolean fields of `Env`.
  - Every operation returns its successor state together with a trace of
    observable actions (`Act`): events handed to the event handler, engine
    calls, host audio-graph calls and network requests, in program order.
  - An uncaught JavaScript exception is modelled by a `threw` flag on the
    result (only `setVolume` can actually set it).
-/

namespace MidiPlayerModel

/-- A JavaScript value as stored in the player's `volume` field: a finite
number (as a rational) or a string. -/
inductive JSVal
  | num (q : ℚ)
  | str (s : String)
deriving DecidableEq

/-- Digits of a decimal literal folded into a natural number. -/
def digitsToNat (ds : List Char) : ℕ :=
  ds.foldl (fun a c => 10 * a + (c.toNat - 48)) 0

/-- Parse a decimal literal `digits[.digits]` prefix of a character list,
returning its rational value and the unconsumed rest; `none` when no digit
is present. -/
def parseDecimal (cs : List Char) : Option (ℚ × List Char) :=
  let p := cs.span Char.isDigit
  match p.2 with
  | '.' :: r2 =>
      let q := r2.span Char.isDigit
      if p.1.isEmpty && q.1.isEmpty then none
      else some ((digitsToNat p.1 : ℚ) + (digitsToNat q.1 : ℚ) / ((10 : ℚ) ^ q.1.length), q.2)
  | _ => if p.1.isEmpty then none else some ((digitsToNat p.1 : ℚ), p.2)

/-- Consume an optional leading sign; returns (isNegative, rest). -/
def signSplit (cs : List Char) : Bool × List Char :=
  match cs with
  | '-' :: r => (true, r)
  | '+' :: r => (false, r)
  | _ => (false, cs)

/-- Models the JavaScript parseFloat builtin on the values used here,
restricted to plain decimal literals (optional spaces, optional sign, digits
with an optional fraction); `none` stands for NaN. -/
def parseFloatJS (v : JSVal) : Option ℚ :=
  match v with
  | .num q => some q
  | .str s =>
      let cs := s.data.dropWhile (fun c => c = ' ')
      let sg := signSplit cs
      match parseDecimal sg.2 with
      | some (q, _) => some (if sg.1 then -q else q)
      | none => none

/-- Models the JavaScript ToNumber coercion (as in the expression
`volume / 100`) on the values used here, restricted to plain decimal
literals; `none` stands for NaN.  Unlike parseFloat it rejects trailing
garbage and sends the empty string to 0. -/
def toNumberJS (v : JSVal) : Option ℚ :=
  match v with
  | .num q => some q
  | .str s =>
      let cs := s.data.dropWhile (fun c => c = ' ')
      let cs2 := (cs.reverse.dropWhile (fun c => c = ' ')).reverse
      if cs2.isEmpty then some 0
      else
        let sg := signSplit cs2
        match parseDecimal sg.2 with
        | some (q, []) => some (if sg.1 then -q else q)
        | _ => none

/-- The JavaScript expression `volume / 100` of setVolume and
createGainNode: ToNumber coercion then exact division; `none` is NaN. -/
def jsDiv100 (v : JSVal) : Option ℚ :=
  (toNumberJS v).map (fun q => q / 100)

/-- Modelled from the spec: the constants module of the repository is not
under src/; the spec fixes the divisor as the maximum representable 16-bit
magnitude, 32767 (the MAX_I16 import of MidiPlayer.js). -/
def MAX_I16 : ℕ := 32767

/-- Modelled from the spec: the fixed 16-bit little-endian PCM format tag
(the MIDI_AUDIO_S16LSB import); its numeric value is not recoverable from
src/ and no claim depends on it. -/
def MIDI_AUDIO_S16LSB : ℕ := 32784

/-- The default patch base URL, as documented in the constructor JSDoc of
MidiPlayer.js (the MIDI_DEFAULT_PATCH_URL import). -/
def MIDI_DEFAULT_PATCH_URL : String :=
  "https://cdn.jsdelivr.net/npm/midi-instrument-patches@latest/"

/-- The distinct event-handler messages MidiPlayer.js emits (identified by
kind rather than by their literal text). -/
inductive Msg
  | unknownSource
  | ambiguousSource
  | noAudioContext
  | retrieveMidiFailed
  | loadSongFailed
  | initPlaybackFailed
  | processAudioFailed
  | pauseFailed
  | resumeFailed
  | stopFailed
  | volumeNotParsable
  | patchFailed (idx : ℕ) (name : String)
deriving DecidableEq

/-- Events handed to the EventHandler (emitInit, emitLoadFile, emitLoadPatch,
emitPlay, emitPause, emitResume, emitStop, emitEnd, emitError). -/
inductive Ev
  | init
  | loadFile
  | loadPatch (count : ℕ)
  | play (time : ℚ)
  | pause (time : ℚ)
  | resume (time : ℚ)
  | stop
  | endEv (time : ℚ)
  | error (m : Msg)
  | custom (name msg : String)
deriving DecidableEq

/-- The LibTiMidity foreign calls MidiPlayer.js performs (LibTiMidity.call,
_malloc, _free, writeArrayToMemory, loadPatchFromUrl). -/
inductive EngineCall
  | malloc (n : ℕ)
  | free (addr : ℕ)
  | writeArray (addr len : ℕ)
  | midInit
  | istreamOpenMem (buf len : ℕ)
  | istreamClose (stream : ℕ)
  | createOptions (rate fmt channels bufBytes : ℕ)
  | songLoad (stream opts : ℕ)
  | songStart (song : ℕ)
  | songReadWave (song buf len : ℕ)
  | songFree (song : ℕ)
  | midExit
  | getNumMissing (song : ℕ)
  | getMissingInstrument (song : ℕ) (idx : ℕ)
  | loadPatchFromUrl (patchUrl : String) (patch : String)
deriving DecidableEq

/-- One observable action of the player: an emitted event, an engine call,
a host audio-graph call or a network request. -/
inductive Act
  | ev (e : Ev)
  | call (c : EngineCall)
  | net (url : String)
  | ctxClose
  | ctxSuspend
  | ctxResume
  | disconnect
deriving DecidableEq

/-- The mutable instance fields of a MidiPlayer that the modelled operations
read or write.  `hasContext` stands for `this.context` being set, `source`
for `this.source` being non-null, `gainNode` for `this.gainNode` (whose gain
value is an `Option ℚ`, `none` being NaN); `hasEventLogger` and `loggingOn`
stand for `this.eventLogger` and `this.logging`. -/
structure PlayerState where
  hasContext : Bool
  sampleRate : ℕ
  source : Bool
  gainNode : Option (Option ℚ)
  song : ℕ
  stream : ℕ
  midiFileBuffer : ℕ
  midiFileLen : ℕ
  waveBuffer : ℕ
  startTime : ℚ
  volume : JSVal
  patchUrl : String
  hasEventLogger : Bool
  loggingOn : Bool
deriving DecidableEq

/-- The oracle for everything outside the player during one operation: the
values external calls return and whether the fallible host calls succeed. -/
structure Env where
  currentTime : ℚ
  sampleRate : ℕ
  canCreateContext : Bool
  midiBufAddr : ℕ
  waveBufAddr : ℕ
  stream1 : ℕ
  stream2 : ℕ
  song1 : ℕ
  song2 : ℕ
  optsHandle : ℕ
  missingCount : ℕ
  missingName : ℕ → String
  patchOk : ℕ → Bool
  fetchOk : Bool
  fetchLen : ℕ
  readWaveBytes : ℕ
  waveMem : ℕ → ℕ
  bufferSize : ℕ
  ctxCloseOk : Bool
  suspendOk : Bool
  resumeOk : Bool

/-- Result of an operation returning a JavaScript Boolean. -/
structure BRes where
  st : PlayerState
  tr : List Act
  ret : Bool
deriving DecidableEq

/-- Result of setVolume: successor state, trace and whether the call threw
an uncaught TypeError. -/
structure VolRes where
  st : PlayerState
  tr : List Act
  threw : Bool
deriving DecidableEq

/-- getVolume (MidiPlayer.js lines 562-564): returns the stored volume
field unchanged. -/
def getVolume (st : PlayerState) : JSVal :=
  st.volume

/-- setVolume (MidiPlayer.js lines 574-584): a volume whose parseFloat is
NaN is rejected with one error event; otherwise the raw volume is stored and
`this.gainNode.gain.value = volume / 100` is executed, which throws a
TypeError when no gain node exists (the source has no try/catch here). -/
def setVolume (st : PlayerState) (volume : JSVal) : VolRes :=
  if (parseFloatJS volume).isNone then
    { st := st, tr := [Act.ev (Ev.error Msg.volumeNotParsable)], threw := false }
  else
    match st.gainNode with
    | none => { st := { st with volume := volume }, tr := [], threw := true }
    | some _ =>
        { st := { st with volume := volume, gainNode := some (jsDiv100 volume) },
          tr := [], threw := false }

/-- pause (MidiPlayer.js lines 475-492): with a context, suspend it and emit
a pause event with the elapsed time; without one, emit a pause event with
time 0; any exception is caught and reported as one error event with a
false return. -/
def pause (env : Env) (st : PlayerState) : BRes :=
  if st.hasContext then
    if env.suspendOk then
      { st := st,
        tr := [Act.ctxSuspend, Act.ev (Ev.pause (env.currentTime - st.startTime))],
        ret := true }
    else
      { st := st, tr := [Act.ctxSuspend, Act.ev (Ev.error Msg.pauseFailed)], ret := false }
  else
    { st := st, tr := [Act.ev (Ev.pause 0)], ret := true }

/-- resume (MidiPlayer.js lines 501-520): the exact mirror of pause with the
resume host call and a resume event. -/
def resume (env : Env) (st : PlayerState) : BRes :=
  if st.hasContext then
    if env.resumeOk then
      { st := st,
        tr := [Act.ctxResume, Act.ev (Ev.resume (env.currentTime - st.startTime))],
        ret := true }
    else
      { st := st, tr := [Act.ctxResume, Act.ev (Ev.error Msg.resumeFailed)], ret := false }
  else
    { st := st, tr := [Act.ev (Ev.resume 0)], ret := true }

/-- stop (MidiPlayer.js lines 529-552 with freeMemory lines 586-590 and
disconnectSource lines 593-596): when a source exists it closes the context,
disconnects the source, frees the wave and MIDI buffers, frees the song,
calls mid-exit and zeroes the song handle; in every case it resets the start
time and emits a stop event, returning true; an exception (context missing
or close failing) is caught and reported as one error event with a false
return. -/
def stop (env : Env) (st : PlayerState) : BRes :=
  if st.source then
    if st.hasContext && env.ctxCloseOk then
      { st := { st with source := false, song := 0, startTime := 0 },
        tr := [Act.ctxClose, Act.disconnect,
               Act.call (EngineCall.free st.waveBuffer),
               Act.call (EngineCall.free st.midiFileBuffer),
               Act.call (EngineCall.songFree st.song),
               Act.call EngineCall.midExit,
               Act.ev Ev.stop],
        ret := true }
    else
      { st := st, tr := [Act.ev (Ev.error Msg.stopFailed)], ret := false }
  else
    { st := { st with startTime := 0 }, tr := [Act.ev Ev.stop], ret := true }

/-- Result of handleStream: successor state, trace and the options handle
the source keeps in a local variable. -/
structure OptRes where
  st : PlayerState
  tr : List Act
  options : ℕ
deriving DecidableEq

/-- handleStream (MidiPlayer.js lines 305-340): allocate engine memory for
the MIDI bytes, copy them in, run mid-init, open a memory stream over them,
create the playback options (sample rate, the S16LSB tag, one channel,
buffer size times two), load the song from the stream and close the stream;
returns the options handle. -/
def handleStream (env : Env) (st : PlayerState) : OptRes :=
  { st := { st with midiFileBuffer := env.midiBufAddr,
                    stream := env.stream1,
                    song := env.song1 },
    tr := [Act.call (EngineCall.malloc st.midiFileLen),
           Act.call (EngineCall.writeArray env.midiBufAddr st.midiFileLen),
           Act.call EngineCall.midInit,
           Act.call (EngineCall.istreamOpenMem env.midiBufAddr st.midiFileLen),
           Act.call (EngineCall.createOptions st.sampleRate MIDI_AUDIO_S16LSB 1
                       (env.bufferSize * 2)),
           Act.call (EngineCall.songLoad env.stream1 env.optsHandle),
           Act.call (EngineCall.istreamClose env.stream1)],
    options := env.optsHandle }

/-- The patch loop of getInstrumentPatches (MidiPlayer.js lines 355-377):
starting at index `i` with `fuel` indices left, resolve each missing
instrument name and attempt the patch fetch; a failing fetch emits one error
event and returns false (`some false`), a completed loop falls through
(`none`, the JavaScript undefined). -/
def patchAttempts (env : Env) (song : ℕ) (patchUrl : String) :
    ℕ → ℕ → List Act × Option Bool
  | _, 0 => ([], none)
  | i, fuel + 1 =>
      let nm := env.missingName i
      let attempt := [Act.call (EngineCall.getMissingInstrument song i),
                      Act.call (EngineCall.loadPatchFromUrl patchUrl nm)]
      if env.patchOk i then
        let rest := patchAttempts env song patchUrl (i + 1) fuel
        (attempt ++ rest.1, rest.2)
      else
        (attempt ++ [Act.ev (Ev.error (Msg.patchFailed i nm))], some false)

/-- Result of getInstrumentPatches: trace and its JavaScript return value
(`none` models the undefined returned on success, `some false` the explicit
false on a patch failure).  The state is unchanged by the source. -/
structure PRes where
  tr : List Act
  ret : Option Bool

/-- getInstrumentPatches (MidiPlayer.js lines 342-379): query the number of
missing instruments; when positive, emit one load-patch event and run the
sequential patch loop from index 0. -/
def getInstrumentPatches (env : Env) (st : PlayerState) : PRes :=
  let head := [Act.call (EngineCall.getNumMissing st.song)]
  if env.missingCount > 0 then
    let p := patchAttempts env st.song st.patchUrl 0 env.missingCount
    { tr := head ++ [Act.ev (Ev.loadPatch env.missingCount)] ++ p.1, ret := p.2 }
  else
    { tr := head, ret := none }

/-- loadSong (MidiPlayer.js lines 266-303): store the MIDI byte length, run
handleStream, run getInstrumentPatches — whose Boolean result the source
discards — then unconditionally reopen a memory stream over the same buffer
and length, reload the song with the same options and close the stream;
returns true (the catch branch is unreachable in the model because engine
calls are modelled as returning normally). -/
def loadSong (env : Env) (st : PlayerState) (len : ℕ) : BRes :=
  let h := handleStream env { st with midiFileLen := len }
  let p := getInstrumentPatches env h.st
  { st := { h.st with stream := env.stream2, song := env.song2 },
    tr := h.tr ++ p.tr ++
          [Act.call (EngineCall.istreamOpenMem h.st.midiFileBuffer len),
           Act.call (EngineCall.songLoad env.stream2 h.options),
           Act.call (EngineCall.istreamClose env.stream2)],
    ret := true }

/-- Result of initPlayback, which returns the JavaScript undefined on every
path. -/
structure URes where
  st : PlayerState
  tr : List Act
deriving DecidableEq

/-- initPlayback (MidiPlayer.js lines 381-397 with connectSource lines
400-414 and createGainNode lines 416-425): start the song (outside the try
block), then create the script processor and the gain node (gain set to
`volume / 100`), allocate the wave buffer and record the start time, and
emit a play event with time 0; a failure of the audio-graph setup (no
context in the model) is caught and reported as one error event. -/
def initPlayback (env : Env) (st : PlayerState) : URes :=
  if st.hasContext then
    { st := { st with source := true,
                      gainNode := some (jsDiv100 st.volume),
                      waveBuffer := env.waveBufAddr,
                      startTime := env.currentTime },
      tr := [Act.call (EngineCall.songStart st.song),
             Act.call (EngineCall.malloc (env.bufferSize * 2)),
             Act.ev (Ev.play 0)] }
  else
    { st := st,
      tr := [Act.call (EngineCall.songStart st.song),
             Act.ev (Ev.error Msg.initPlaybackFailed)] }

/-- initAudioContext (MidiPlayer.js lines 199-214): adopt the provided
context or create one; on failure emit one error event and return false. -/
def initAudioContext (env : Env) (st : PlayerState) (audioContextProvided : Bool) : BRes :=
  if audioContextProvided || env.canCreateContext then
    { st := { st with hasContext := true, sampleRate := env.sampleRate },
      tr := [], ret := true }
  else
    { st := st, tr := [Act.ev (Ev.error Msg.noAudioContext)], ret := false }

/-- isSourceValid (MidiPlayer.js lines 216-234): neither source present
emits the unknown-source error, both present the ambiguous-source error;
exactly one present is valid. -/
def isSourceValid (hasBuf hasUrl : Bool) : List Act × Bool :=
  if !hasBuf && !hasUrl then
    ([Act.ev (Ev.error Msg.unknownSource)], false)
  else if hasBuf && hasUrl then
    ([Act.ev (Ev.error Msg.ambiguousSource)], false)
  else
    ([], true)

/-- getSource (MidiPlayer.js lines 236-264): an array buffer is returned
directly with no network request; a URL is fetched, a non-200 status or a
network exception emitting one error event and yielding a falsy result. -/
def getSource (env : Env) (arrayBuffer : Option ℕ) (url : Option String) :
    List Act × Option ℕ :=
  match arrayBuffer with
  | some len => ([], some len)
  | none =>
      match url with
      | some u =>
          if env.fetchOk then ([Act.net u], some env.fetchLen)
          else ([Act.net u, Act.ev (Ev.error Msg.retrieveMidiFailed)], none)
      | none => ([Act.ev (Ev.error Msg.retrieveMidiFailed)], none)

/-- The JavaScript value play returns: the literal false of a failed
precondition, or undefined (the fall-through and the initPlayback result). -/
inductive JSRet
  | rFalse
  | rUndef
deriving DecidableEq

/-- Result of play. -/
structure PlayRes where
  st : PlayerState
  tr : List Act
  ret : JSRet
deriving DecidableEq

/-- play (MidiPlayer.js lines 169-197): stop any existing session, set up
the audio context, validate the source, emit a load-file event, obtain the
bytes, load the song and — when loadSong returned true — initialize
playback; each failed precondition returns false. -/
def play (env : Env) (st : PlayerState) (arrayBuffer : Option ℕ)
    (url : Option String) (audioContextProvided : Bool) : PlayRes :=
  let s := stop env st
  let a := initAudioContext env s.st audioContextProvided
  if a.ret = false then
    { st := a.st, tr := s.tr ++ a.tr, ret := JSRet.rFalse }
  else
    let v := isSourceValid arrayBuffer.isSome url.isSome
    if v.2 = false then
      { st := a.st, tr := s.tr ++ a.tr ++ v.1, ret := JSRet.rFalse }
    else
      let g := getSource env arrayBuffer url
      match g.2 with
      | none =>
          { st := a.st, tr := s.tr ++ a.tr ++ v.1 ++ [Act.ev Ev.loadFile] ++ g.1,
            ret := JSRet.rFalse }
      | some len =>
          let l := loadSong env a.st len
          if l.ret then
            let ip := initPlayback env l.st
            { st := ip.st,
              tr := s.tr ++ a.tr ++ v.1 ++ [Act.ev Ev.loadFile] ++ g.1 ++ l.tr ++ ip.tr,
              ret := JSRet.rUndef }
          else
            { st := l.st,
              tr := s.tr ++ a.tr ++ v.1 ++ [Act.ev Ev.loadFile] ++ g.1 ++ l.tr,
              ret := JSRet.rUndef }

/-- preload (MidiPlayer.js lines 123-148): for each item in order, set up
the audio context, validate the source, obtain the bytes, run handleStream
and run getInstrumentPatches (whose Boolean result the source discards
here too); the first failure returns false, a completed loop falls through
to undefined.  Items are (array buffer, URL) option pairs. -/
def preload (env : Env) :
    PlayerState → List (Option ℕ × Option String) → Bool → PlayRes
  | st, [], _ => { st := st, tr := [], ret := JSRet.rUndef }
  | st, item :: rest, acp =>
      let a := initAudioContext env st acp
      if a.ret = false then
        { st := a.st, tr := a.tr, ret := JSRet.rFalse }
      else
        let v := isSourceValid item.1.isSome item.2.isSome
        if v.2 = false then
          { st := a.st, tr := a.tr ++ v.1, ret := JSRet.rFalse }
        else
          let g := getSource env item.1 item.2
          match g.2 with
          | none =>
              { st := a.st, tr := a.tr ++ v.1 ++ g.1, ret := JSRet.rFalse }
          | some len =>
              let h := handleStream env { a.st with midiFileLen := len }
              let p := getInstrumentPatches env h.st
              let r := preload env h.st rest acp
              { st := r.st, tr := a.tr ++ v.1 ++ g.1 ++ h.tr ++ p.tr ++ r.tr,
                ret := r.ret }

/-- emitEvent (MidiPlayer.js line 609): forwards the caller's payload to the
event handler unchanged and touches no instance state.  The handler itself
is modelled from the spec: the EventHandler module is not under src/ and the
spec describes emitEvent as a pass-through of caller-defined custom payloads
to the sink. -/
def emitEvent (payload : Ev) : List Act :=
  [Act.ev payload]

/-- setLogger (MidiPlayer.js lines 622-626): replaces the stored event
logger and logging flag (and hands the same pair to the event handler,
which is modelled from the spec: the EventHandler module is not under src/
and the spec describes setLogger as replacing the sink's callback and
log-enable state without affecting playback); nothing is emitted. -/
def setLogger (st : PlayerState) (hasLogger loggingFlag : Bool) :
    PlayerState × List Act :=
  ({ st with hasEventLogger := hasLogger, loggingOn := loggingFlag }, [])

/-- A signed little-endian 16-bit value assembled from two bytes, as
Emscripten getValue with type i16 reads it from the heap. -/
def i16FromBytesLE (lo hi : ℕ) : ℤ :=
  let u := lo % 256 + 256 * (hi % 256)
  if u < 32768 then (u : ℤ) else (u : ℤ) - 65536

/-- Result of handleOutput: successor state, trace and the channel data
written to the output buffer (`none` when the buffer was not filled). -/
structure OutRes where
  st : PlayerState
  tr : List Act
  out : Option (ℕ → ℚ)

/-- handleOutput (MidiPlayer.js lines 427-466): emit a play event with the
elapsed time, read the next wave chunk; zero bytes produced means
end-of-stream — stop and emit one end event with that elapsed time, leaving
the buffer unfilled; otherwise fill every slot of the chunk, slots below the
produced byte count with the little-endian signed 16-bit value at byte
offset twice the slot index divided by MAX_I16, the rest with 0. -/
def handleOutput (env : Env) (st : PlayerState) : OutRes :=
  let time := env.currentTime - st.startTime
  let head := [Act.ev (Ev.play time),
               Act.call (EngineCall.songReadWave st.song st.waveBuffer
                           (env.bufferSize * 2))]
  if env.readWaveBytes = 0 then
    let s := stop env st
    { st := s.st, tr := head ++ s.tr ++ [Act.ev (Ev.endEv time)], out := none }
  else
    { st := st, tr := head,
      out := some (fun i =>
        if i < env.readWaveBytes then
          (i16FromBytesLE (env.waveMem (st.waveBuffer + 2 * i))
             (env.waveMem (st.waveBuffer + 2 * i + 1)) : ℚ) / (MAX_I16 : ℚ)
        else 0) }

/-- Whether an action is an engine call. -/
def isEngine : Act → Bool
  | Act.call _ => true
  | _ => false

/-- Whether an action is a network request. -/
def isNet : Act → Bool
  | Act.net _ => true
  | _ => false

/-- Whether an action is an emitted error event. -/
def isErrorEv : Act → Bool
  | Act.ev (Ev.error _) => true
  | _ => false

/-- Whether an action is an emitted end event. -/
def isEndEv : Act → Bool
  | Act.ev (Ev.endEv _) => true
  | _ => false

/-- Whether an action is a memory-stream open engine call. -/
def isOpenMem : Act → Bool
  | Act.call (EngineCall.istreamOpenMem _ _) => true
  | _ => false

/-- Whether an action is a song-load engine call. -/
def isSongLoad : Act → Bool
  | Act.call (EngineCall.songLoad _ _) => true
  | _ => false

/-- Whether an action is a stream-close engine call. -/
def isStreamClose : Act → Bool
  | Act.call (EngineCall.istreamClose _) => true
  | _ => false

/-- Whether an action is a patch-fetch attempt. -/
def isPatchFetch : Act → Bool
  | Act.call (EngineCall.loadPatchFromUrl _ _) => true
  | _ => false

/-- Number of error events in a trace. -/
def errorCount (t : List Act) : ℕ :=
  (t.filter isErrorEv).length

/-- Number of end events in a trace. -/
def endCount (t : List Act) : ℕ :=
  (t.filter isEndEv).length

/-- A freshly constructed player: no context, no source, no gain node, no
handles, start time 0, the default volume 80 and the default patch URL. -/
def st0 : PlayerState :=
  { hasContext := false, sampleRate := 0, source := false, gainNode := none,
    song := 0, stream := 0, midiFileBuffer := 0, midiFileLen := 0,
    waveBuffer := 0, startTime := 0, volume := JSVal.num 80,
    patchUrl := MIDI_DEFAULT_PATCH_URL, hasEventLogger := true,
    loggingOn := false }

/-- A player with a live session: script-processor source connected, context
present, handles from a previous load. -/
def stLive : PlayerState :=
  { hasContext := true, sampleRate := 44100, source := true,
    gainNode := some (some (4/5)), song := 21, stream := 11,
    midiFileBuffer := 1000, midiFileLen := 4, waveBuffer := 2000,
    startTime := 2, volume := JSVal.num 80,
    patchUrl := MIDI_DEFAULT_PATCH_URL, hasEventLogger := true,
    loggingOn := false }

/-- A player whose gain node exists (otherwise fresh). -/
def stG : PlayerState :=
  { st0 with gainNode := some (some (4/5)) }

/-- A concrete environment: one missing instrument whose patch fetch fails,
an end-of-stream read (zero wave bytes), all host calls succeeding. -/
def env1 : Env :=
  { currentTime := 5, sampleRate := 44100, canCreateContext := true,
    midiBufAddr := 1000, waveBufAddr := 2000, stream1 := 11, stream2 := 12,
    song1 := 21, song2 := 22, optsHandle := 31, missingCount := 1,
    missingName := fun _ => "patchA", patchOk := fun _ => false,
    fetchOk := true, fetchLen := 4, readWaveBytes := 0,
    waveMem := fun _ => 0, bufferSize := 8, ctxCloseOk := true,
    suspendOk := true, resumeOk := true }

/-- An environment in which no audio context can be created. -/
def envNoCtx : Env :=
  { env1 with canCreateContext := false }

/-- An environment whose wave read produces two bytes, the scratch memory
holding the byte 255 everywhere. -/
def envW : Env :=
  { env1 with readWaveBytes := 2, waveMem := fun _ => 255 }

/-- Any value assembled by i16FromBytesLE lies in the signed 16-bit range. -/
theorem i16FromBytesLE_bounds (lo hi : ℕ) :
    -32768 ≤ i16FromBytesLE lo hi ∧ i16FromBytesLE lo hi ≤ 32767 := by
  have h1 : lo % 256 < 256 := Nat.mod_lt _ (by norm_num)
  have h2 : hi % 256 < 256 := Nat.mod_lt _ (by norm_num)
  simp only [i16FromBytesLE]
  constructor <;> split <;> omega

/-- Dividing a signed 16-bit value by 32767 lands in [-32768/32767, 1]. -/
theorem div32767_bounds (z : ℤ) (h1 : -32768 ≤ z) (h2 : z ≤ 32767) :
    -(32768 / 32767 : ℚ) ≤ (z : ℚ) / 32767 ∧ (z : ℚ) / 32767 ≤ 1 := by
  have hz1 : (-32768 : ℚ) ≤ (z : ℚ) := by exact_mod_cast h1
  have hz2 : (z : ℚ) ≤ 32767 := by exact_mod_cast h2
  constructor
  · rw [← neg_div]
    gcongr
  · calc (z : ℚ) / 32767 ≤ 32767 / 32767 := by gcongr
      _ = 1 := by norm_num

/-- The patch loop performs no stream-open, song-load or stream-close
engine call, whatever its starting index and remaining count. -/
theorem patchAttempts_stream_free (env : Env) (song : ℕ) (purl : String) :
    ∀ fuel i, (patchAttempts env song purl i fuel).1.filter isOpenMem = [] ∧
              (patchAttempts env song purl i fuel).1.filter isSongLoad = [] ∧
              (patchAttempts env song purl i fuel).1.filter isStreamClose = [] := by
  intro fuel
  induction fuel with
  | zero => intro i; simp [patchAttempts, isOpenMem, isSongLoad, isStreamClose]
  | succ n ih =>
      intro i
      by_cases h : env.patchOk i <;>
        simp [patchAttempts, h, List.filter_append, ih i.succ,
              isOpenMem, isSongLoad, isStreamClose]

/-- C1: the code contradicts the claim at its failing input.  With a song
reporting one missing instrument whose patch fetch rejects, loadSong
discards the false that getInstrumentPatches returned, so play still
reloads the song and performs the mid-song-start engine call: the trace of
the play invocation contains both the patch-failure error event and the
song-start call, and play does not return false. -/
theorem play_patch_failure_still_starts_song :
    Act.ev (Ev.error (Msg.patchFailed 0 "patchA")) ∈ (play env1 st0 (some 4) none true).tr ∧
    Act.call (EngineCall.songStart 22) ∈ (play env1 st0 (some 4) none true).tr ∧
    (play env1 st0 (some 4) none true).ret = JSRet.rUndef := by
  decide

/-- C2: counterexample.  setVolume called with the numeric volume 50 on an
instance with no gain node propagates an uncaught TypeError to the caller
(the source dereferences this.gainNode.gain with no try/catch). -/
theorem setVolume_numeric_no_gainNode_throws :
    (setVolume st0 (JSVal.num 50)).threw = true := by
  decide

/-- loadSong returns true on every input: engine calls are modelled as
returning normally, so its catch branch cannot fire. -/
theorem loadSong_ret_true (env : Env) (st : PlayerState) (len : ℕ) :
    (loadSong env st len).ret = true := rfl

/-- Every play invocation that returns false has emitted at least one error
event: each failing precondition (context setup, source validation, byte
retrieval) reports itself before play returns. -/
theorem play_failure_reports (env : Env) (st : PlayerState) (ab : Option ℕ)
    (u : Option String) (acp : Bool)
    (h : (play env st ab u acp).ret = JSRet.rFalse) :
    1 ≤ errorCount (play env st ab u acp).tr := by
  by_cases hc : (acp || env.canCreateContext) = true
  · cases ab with
    | some len =>
        cases u with
        | some uu =>
            simp [play, initAudioContext, hc, isSourceValid, getSource,
                  errorCount, List.filter_append, List.filter, isErrorEv]
        | none =>
            simp [play, initAudioContext, hc, isSourceValid, getSource,
                  loadSong_ret_true] at h
    | none =>
        cases u with
        | some uu =>
            by_cases hf : env.fetchOk
            · simp [play, initAudioContext, hc, isSourceValid, getSource, hf,
                    loadSong_ret_true] at h
            · simp [play, initAudioContext, hc, isSourceValid, getSource, hf,
                    errorCount, List.filter_append, List.filter, isErrorEv]
        | none =>
            simp [play, initAudioContext, hc, isSourceValid, errorCount,
                  List.filter_append, List.filter, isErrorEv]
  · simp [play, initAudioContext, hc, errorCount, List.filter_append,
          List.filter, isErrorEv]

/-- Every preload invocation that returns false has emitted at least one
error event, whatever the item list: by induction over the items, the
failing iteration reports itself before preload returns. -/
theorem preload_failure_reports (env : Env)
    (items : List (Option ℕ × Option String)) :
    ∀ (st : PlayerState) (acp : Bool),
      (preload env st items acp).ret = JSRet.rFalse →
      1 ≤ errorCount (preload env st items acp).tr := by
  induction items with
  | nil =>
      intro st acp h
      simp [preload] at h
  | cons item rest ih =>
      intro st acp h
      obtain ⟨ab, u⟩ := item
      by_cases hc : (acp || env.canCreateContext) = true
      · cases ab with
        | some len =>
            cases u with
            | some uu =>
                simp [preload, initAudioContext, hc, isSourceValid, errorCount,
                      List.filter_append, List.filter, isErrorEv]
            | none =>
                simp only [preload, initAudioContext, hc, isSourceValid,
                           getSource] at h ⊢
                simp at h ⊢
                have hr := ih _ acp h
                simp [errorCount, List.filter_append, List.filter,
                      isErrorEv] at hr ⊢
                omega
        | none =>
            cases u with
            | some uu =>
                by_cases hf : env.fetchOk
                · simp only [preload, initAudioContext, hc, isSourceValid,
                             getSource, hf] at h ⊢
                  simp [hf] at h ⊢
                  have hr := ih _ acp h
                  simp [errorCount, List.filter_append, List.filter,
                        isErrorEv] at hr ⊢
                  omega
                · simp [preload, initAudioContext, hc, isSourceValid, getSource,
                        hf, errorCount, List.filter_append, List.filter, isErrorEv]
            | none =>
                simp [preload, initAudioContext, hc, isSourceValid, errorCount,
                      List.filter_append, List.filter, isErrorEv]
      · simp [preload, initAudioContext, hc, errorCount, List.filter_append,
              List.filter, isErrorEv]

/-- C2 amended: no public operation besides the constructor propagates an
exception, except setVolume.  play and preload return false only having
emitted an error event for the failure they caught; pause, resume and stop
return true, or false together with exactly one error event; getVolume,
emitEvent and setLogger have no failure path at all (setLogger touching only
the logger fields); setVolume alone violates the policy, throwing a
TypeError precisely when the volume parses to a number and no gain node
exists. -/
theorem exception_policy (env : Env) (st : PlayerState) (v : JSVal)
    (ab : Option ℕ) (u : Option String) (acp : Bool)
    (items : List (Option ℕ × Option String)) (hl lg : Bool) (payload : Ev) :
    ((play env st ab u acp).ret = JSRet.rFalse →
       1 ≤ errorCount (play env st ab u acp).tr) ∧
    ((preload env st items acp).ret = JSRet.rFalse →
       1 ≤ errorCount (preload env st items acp).tr) ∧
    ((pause env st).ret = true ∨
       ((pause env st).ret = false ∧ errorCount (pause env st).tr = 1)) ∧
    ((resume env st).ret = true ∨
       ((resume env st).ret = false ∧ errorCount (resume env st).tr = 1)) ∧
    ((stop env st).ret = true ∨
       ((stop env st).ret = false ∧ errorCount (stop env st).tr = 1)) ∧
    getVolume st = st.volume ∧
    emitEvent payload = [Act.ev payload] ∧
    setLogger st hl lg = ({ st with hasEventLogger := hl, loggingOn := lg }, []) ∧
    ((setVolume st v).threw = true ↔
       (parseFloatJS v).isSome = true ∧ st.gainNode = none) := by
  refine ⟨play_failure_reports env st ab u acp,
          preload_failure_reports env items st acp,
          ?_, ?_, ?_, rfl, rfl, rfl, ?_⟩
  · by_cases h : st.hasContext
    · by_cases h2 : env.suspendOk <;>
        simp [pause, h, h2, errorCount, isErrorEv, List.filter]
    · simp [pause, h]
  · by_cases h : st.hasContext
    · by_cases h2 : env.resumeOk <;>
        simp [resume, h, h2, errorCount, isErrorEv, List.filter]
    · simp [resume, h]
  · by_cases h : st.source
    · by_cases h2 : st.hasContext && env.ctxCloseOk <;>
        simp [stop, h, h2, errorCount, isErrorEv, List.filter]
    · simp [stop, h]
  · cases hpf : parseFloatJS v with
    | none => simp [setVolume, hpf]
    | some q =>
        cases hg : st.gainNode with
        | none => simp [setVolume, hpf, hg]
        | some g => simp [setVolume, hpf, hg]

/-- C2 amended, witness: with a gain node present a parseable volume does
not throw. -/
theorem exception_policy_witness :
    (setVolume stG (JSVal.num 50)).threw = false := by
  have h := (exception_policy env1 stG (JSVal.num 50) (some 4) none true []
    true false Ev.stop).2.2.2.2.2.2.2.2
  by_cases hb : (setVolume stG (JSVal.num 50)).threw = true
  · exact absurd (h.mp hb).2 (by decide)
  · simpa using hb

/-- C3: whenever the engine reports a positive byte count, the callback
fills the output buffer; slot i below the byte count holds the little-endian
signed 16-bit value at byte offset 2i of the scratch buffer divided by
32767, any other slot holds 0, and every sample lies in [-32768/32767, 1]. -/
theorem handleOutput_sample_conversion (env : Env) (st : PlayerState) (i : ℕ)
    (hpos : 0 < env.readWaveBytes) (_hi : i < env.bufferSize) :
    ∃ f, (handleOutput env st).out = some f ∧
      f i = (if i < env.readWaveBytes then
               (i16FromBytesLE (env.waveMem (st.waveBuffer + 2 * i))
                  (env.waveMem (st.waveBuffer + 2 * i + 1)) : ℚ) / 32767
             else 0) ∧
      -(32768 / 32767 : ℚ) ≤ f i ∧ f i ≤ 1 := by
  have hne : env.readWaveBytes ≠ 0 := Nat.pos_iff_ne_zero.mp hpos
  refine ⟨fun j => if j < env.readWaveBytes then
      (i16FromBytesLE (env.waveMem (st.waveBuffer + 2 * j))
         (env.waveMem (st.waveBuffer + 2 * j + 1)) : ℚ) / ((MAX_I16 : ℕ) : ℚ)
    else 0, ?_, ?_, ?_, ?_⟩
  · simp [handleOutput, hne]
  · by_cases hc : i < env.readWaveBytes <;> simp [hc, MAX_I16]
  · by_cases hc : i < env.readWaveBytes
    · have hb := i16FromBytesLE_bounds (env.waveMem (st.waveBuffer + 2 * i))
        (env.waveMem (st.waveBuffer + 2 * i + 1))
      have hd := (div32767_bounds _ hb.1 hb.2).1
      simp only [if_pos hc, MAX_I16]
      simpa using hd
    · simp only [if_neg hc]
      norm_num
  · by_cases hc : i < env.readWaveBytes
    · have hb := i16FromBytesLE_bounds (env.waveMem (st.waveBuffer + 2 * i))
        (env.waveMem (st.waveBuffer + 2 * i + 1))
      have hd := (div32767_bounds _ hb.1 hb.2).2
      simp only [if_pos hc, MAX_I16]
      simpa using hd
    · simp only [if_neg hc]
      norm_num

/-- C3 witness: a two-byte read over a scratch buffer of 255-bytes. -/
theorem handleOutput_sample_conversion_witness :
    0 < envW.readWaveBytes ∧ 0 < envW.bufferSize ∧
    (∃ f, (handleOutput envW stLive).out = some f ∧
      f 0 = (if 0 < envW.readWaveBytes then
               (i16FromBytesLE (envW.waveMem (stLive.waveBuffer + 2 * 0))
                  (envW.waveMem (stLive.waveBuffer + 2 * 0 + 1)) : ℚ) / 32767
             else 0) ∧
      -(32768 / 32767 : ℚ) ≤ f 0 ∧ f 0 ≤ 1) :=
  ⟨by decide, by decide,
   handleOutput_sample_conversion envW stLive 0 (by decide) (by decide)⟩

/-- C4: loadSong performs the open-load-close cycle exactly twice, both
opens over the same engine buffer and byte length, both loads with the same
options handle, for every number of missing patches (zero included) and
whether or not a patch fetch fails: one cycle inside handleStream before
patch resolution, one unconditional reload after it. -/
theorem loadSong_double_cycle (env : Env) (st : PlayerState) (len : ℕ) :
    (loadSong env st len).tr.filter isOpenMem =
      [Act.call (EngineCall.istreamOpenMem env.midiBufAddr len),
       Act.call (EngineCall.istreamOpenMem env.midiBufAddr len)] ∧
    (loadSong env st len).tr.filter isSongLoad =
      [Act.call (EngineCall.songLoad env.stream1 env.optsHandle),
       Act.call (EngineCall.songLoad env.stream2 env.optsHandle)] ∧
    (loadSong env st len).tr.filter isStreamClose =
      [Act.call (EngineCall.istreamClose env.stream1),
       Act.call (EngineCall.istreamClose env.stream2)] := by
  have hp := patchAttempts_stream_free env env.song1 st.patchUrl env.missingCount 0
  by_cases h : env.missingCount > 0 <;>
    simp [loadSong, getInstrumentPatches, handleStream, h, List.filter_append,
          hp.1, hp.2.1, hp.2.2, isOpenMem, isSongLoad, isStreamClose]

/-- C4 witness: the double cycle on a concrete environment and state. -/
theorem loadSong_double_cycle_witness :
    (loadSong env1 st0 4).tr.filter isOpenMem =
      [Act.call (EngineCall.istreamOpenMem 1000 4),
       Act.call (EngineCall.istreamOpenMem 1000 4)] ∧
    (loadSong env1 st0 4).tr.filter isSongLoad =
      [Act.call (EngineCall.songLoad 11 31),
       Act.call (EngineCall.songLoad 12 31)] :=
  ⟨(loadSong_double_cycle env1 st0 4).1, (loadSong_double_cycle env1 st0 4).2.1⟩

/-- C5: a zero-byte wave read makes the callback emit exactly one end event
carrying the elapsed time (current clock minus recorded start time), run
stop - after which no source remains, the song handle is zeroed and the
start time reset - and leave the output buffer unfilled; a subsequent stop
releases nothing (its trace is the lone stop event). -/
theorem handleOutput_end_of_stream (env env2 : Env) (st : PlayerState)
    (h0 : env.readWaveBytes = 0) (hsrc : st.source = true)
    (hctx : st.hasContext = true) (hclose : env.ctxCloseOk = true) :
    endCount (handleOutput env st).tr = 1 ∧
    Act.ev (Ev.endEv (env.currentTime - st.startTime)) ∈ (handleOutput env st).tr ∧
    (handleOutput env st).st.source = false ∧
    (handleOutput env st).st.song = 0 ∧
    (handleOutput env st).st.startTime = 0 ∧
    (handleOutput env st).out = none ∧
    (stop env2 (handleOutput env st).st).tr = [Act.ev Ev.stop] := by
  simp [handleOutput, stop, h0, hsrc, hctx, hclose, endCount, isEndEv,
        List.filter_append, List.filter]

/-- C5 witness: end-of-stream on a live session. -/
theorem handleOutput_end_of_stream_witness :
    endCount (handleOutput env1 stLive).tr = 1 ∧
    (handleOutput env1 stLive).st.source = false ∧
    (handleOutput env1 stLive).out = none := by
  have h := handleOutput_end_of_stream env1 env1 stLive rfl rfl rfl rfl
  exact ⟨h.1, h.2.2.1, h.2.2.2.2.2.1⟩

/-- C6: stop on an instance with no live source emits exactly one stop
event, returns true, performs no engine call and no release call (its whole
trace is that one event), and only resets the start time. -/
theorem stop_no_session (env : Env) (st : PlayerState) (h : st.source = false) :
    stop env st = { st := { st with startTime := 0 },
                    tr := [Act.ev Ev.stop], ret := true } := by
  simp [stop, h]

/-- C6 witness: stop on the fresh instance. -/
theorem stop_no_session_witness :
    stop env1 st0 = { st := { st0 with startTime := 0 },
                      tr := [Act.ev Ev.stop], ret := true } :=
  stop_no_session env1 st0 rfl

/-- C7: counterexample.  First, play given both a URL and a buffer while a
session is live does make engine calls - the initial stop frees the buffers
and calls mid-exit - though it returns false as claimed.  Second, when no
audio context can be set up, the single error event of such a play is the
context error, not the ambiguous-source error. -/
theorem play_validation_counterexample :
    (Act.call EngineCall.midExit ∈ (play env1 stLive (some 4) (some "u") true).tr ∧
     (play env1 stLive (some 4) (some "u") true).ret = JSRet.rFalse) ∧
    (Act.ev (Ev.error Msg.ambiguousSource) ∉ (play envNoCtx st0 (some 4) (some "u") false).tr ∧
     (play envNoCtx st0 (some 4) (some "u") false).ret = JSRet.rFalse ∧
     errorCount (play envNoCtx st0 (some 4) (some "u") false).tr = 1) := by
  decide

/-- C7 amended: provided no live output stage exists (so the leading stop
releases nothing) and the audio context is available, play given both a URL
and a buffer - or neither - returns false and emits exactly one error
event, the ambiguous-source respectively unknown-source error, with no
network request and no engine call. -/
theorem play_source_validation (env : Env) (st : PlayerState) (buf : ℕ) (u : String)
    (hsrc : st.source = false) :
    (play env st (some buf) (some u) true).ret = JSRet.rFalse ∧
    errorCount (play env st (some buf) (some u) true).tr = 1 ∧
    Act.ev (Ev.error Msg.ambiguousSource) ∈ (play env st (some buf) (some u) true).tr ∧
    (play env st (some buf) (some u) true).tr.filter isNet = [] ∧
    (play env st (some buf) (some u) true).tr.filter isEngine = [] ∧
    (play env st none none true).ret = JSRet.rFalse ∧
    errorCount (play env st none none true).tr = 1 ∧
    Act.ev (Ev.error Msg.unknownSource) ∈ (play env st none none true).tr ∧
    (play env st none none true).tr.filter isNet = [] ∧
    (play env st none none true).tr.filter isEngine = [] := by
  simp [play, stop, hsrc, initAudioContext, isSourceValid, errorCount,
        List.filter_append, List.filter, isErrorEv, isNet, isEngine]

/-- C7 amended, witness: validation on the fresh instance. -/
theorem play_source_validation_witness :
    (play env1 st0 (some 4) (some "u") true).ret = JSRet.rFalse ∧
    (play env1 st0 none none true).ret = JSRet.rFalse :=
  ⟨(play_source_validation env1 st0 4 "u" rfl).1,
   (play_source_validation env1 st0 4 "u" rfl).2.2.2.2.2.1⟩

/-- C8: counterexample.  setVolume given the parseable volume 25 on an
instance with no gain node is not the handled be-silent-when-absent case
the claim describes: it stores the volume and then throws a TypeError. -/
theorem setVolume_success_no_gainNode_counterexample :
    (setVolume { st0 with volume := JSVal.num 10 } (JSVal.num 25)).threw = true ∧
    (setVolume { st0 with volume := JSVal.num 10 } (JSVal.num 25)).st.volume =
      JSVal.num 25 := by
  decide

/-- C8 amended: setVolume rejects a volume whose parseFloat is NaN with
exactly one error event, leaving the stored volume and the gain node
untouched; given a parseable volume it stores the raw value, then writes
volume/100 to the gain node when one exists, and throws a TypeError (with
the volume already stored) when none does. -/
theorem setVolume_behavior (st : PlayerState) (v : JSVal) :
    ((parseFloatJS v).isNone = true →
       setVolume st v = { st := st,
                          tr := [Act.ev (Ev.error Msg.volumeNotParsable)],
                          threw := false }) ∧
    ((parseFloatJS v).isSome = true →
       (setVolume st v).st.volume = v ∧
       (∀ g, st.gainNode = some g →
          (setVolume st v).st.gainNode = some (jsDiv100 v) ∧
          (setVolume st v).threw = false ∧ (setVolume st v).tr = []) ∧
       (st.gainNode = none → (setVolume st v).threw = true)) := by
  constructor
  · intro h
    simp [setVolume, h]
  · intro h
    have hn : (parseFloatJS v).isNone = false := by
      cases hpf : parseFloatJS v with
      | none => rw [hpf] at h; simp at h
      | some q => simp
    refine ⟨?_, ?_, ?_⟩
    · cases hg : st.gainNode <;> simp [setVolume, hn, hg]
    · intro g hg
      simp [setVolume, hn, hg]
    · intro hg
      simp [setVolume, hn, hg]

/-- C8 amended, witness: the reject branch with a non-numeric volume. -/
theorem setVolume_behavior_witness :
    (setVolume stG (JSVal.str "abc")).tr =
      [Act.ev (Ev.error Msg.volumeNotParsable)] := by
  have h := (setVolume_behavior stG (JSVal.str "abc")).1 (by decide)
  rw [h]

/-- C9: with no audio context, pause and resume each emit exactly one pause
respectively resume event with time 0 and return true, touching nothing; in
every state both return a Boolean - true, or false together with exactly
the one error event of the caught exception - and never throw. -/
theorem pause_resume_no_context (env : Env) (st : PlayerState) :
    (st.hasContext = false →
       pause env st = { st := st, tr := [Act.ev (Ev.pause 0)], ret := true } ∧
       resume env st = { st := st, tr := [Act.ev (Ev.resume 0)], ret := true }) ∧
    ((pause env st).ret = true ∨
       ((pause env st).ret = false ∧
        (pause env st).tr = [Act.ctxSuspend, Act.ev (Ev.error Msg.pauseFailed)] ∧
        (pause env st).st = st)) ∧
    ((resume env st).ret = true ∨
       ((resume env st).ret = false ∧
        (resume env st).tr = [Act.ctxResume, Act.ev (Ev.error Msg.resumeFailed)] ∧
        (resume env st).st = st)) := by
  refine ⟨?_, ?_, ?_⟩
  · intro h
    simp [pause, resume, h]
  · by_cases h : st.hasContext
    · by_cases h2 : env.suspendOk <;> simp [pause, h, h2]
    · simp [pause, h]
  · by_cases h : st.hasContext
    · by_cases h2 : env.resumeOk <;> simp [resume, h, h2]
    · simp [resume, h]

/-- C9 witness: pause on the fresh, context-free instance. -/
theorem pause_resume_no_context_witness :
    pause env1 st0 = { st := st0, tr := [Act.ev (Ev.pause 0)], ret := true } ∧
    resume env1 st0 = { st := st0, tr := [Act.ev (Ev.resume 0)], ret := true } :=
  (pause_resume_no_context env1 st0).1 rfl

/-- C10: a setVolume whose argument parses stores the raw argument itself -
so every later getVolume returns that very value, a string staying a string
- while, when a gain node exists, its gain becomes the JavaScript quotient
volume/100 (ToNumber coercion then division). -/
theorem setVolume_stores_raw (st : PlayerState) (v : JSVal)
    (h : (parseFloatJS v).isSome = true) :
    (setVolume st v).st.volume = v ∧
    getVolume (setVolume st v).st = v ∧
    (∀ g, st.gainNode = some g →
       (setVolume st v).st.gainNode = some (jsDiv100 v) ∧
       (setVolume st v).threw = false) := by
  have hn : (parseFloatJS v).isNone = false := by
    cases hpf : parseFloatJS v with
    | none => rw [hpf] at h; simp at h
    | some q => simp
  refine ⟨?_, ?_, ?_⟩
  · cases hg : st.gainNode <;> simp [setVolume, hn, hg]
  · cases hg : st.gainNode <;> simp [setVolume, getVolume, hn, hg]
  · intro g hg
    simp [setVolume, hn, hg]

/-- C10 witness: the string volume "50" is stored as the string itself
while the gain becomes 1/2. -/
theorem setVolume_stores_raw_witness :
    (setVolume stG (JSVal.str "50")).st.volume = JSVal.str "50" ∧
    getVolume (setVolume stG (JSVal.str "50")).st = JSVal.str "50" ∧
    (setVolume stG (JSVal.str "50")).st.gainNode = some (some (1 / 2)) := by
  have h := setVolume_stores_raw stG (JSVal.str "50") (by decide)
  refine ⟨h.1, h.2.1, ?_⟩
  have hg := (h.2.2 (some (4 / 5)) rfl).1
  rw [hg]
  have hnum : toNumberJS (JSVal.str "50") = some ((50 : ℕ) : ℚ) := rfl
  simp [jsDiv100, hnum]
  norm_num

end MidiPlayerModel

